import Mathlib

/-!
Verification of the DMA peripheral capability contract (`src/peripheral.rs`).

The source file declares two Rust traits, `Source<E: Element>` and
`Destination<E: Element>`, with no method bodies: they are capability
contracts that external peripheral drivers implement and a DMA engine
consumes.  We embed the contract at two levels:

* a *signature level*: the method table of the two traits (receiver kinds,
  return kinds, synchrony), read directly off the trait declarations;
* a *semantic level*: an implementation of a trait is a record of state
  transformers (a method taking a shared reference becomes a pure function
  of the state; a method taking an exclusive reference becomes a state
  transformer; a method returning a Rust result becomes a function into a
  pair of the new state and an exception value), and conformance is a
  predicate collecting the laws the trait documentation and the contract
  impose on implementations.
-/

namespace ImxrtDma

/-- The kind of receiver a trait method takes: a shared reference
(Rust receiver of the borrowed form) or an exclusive mutable reference. -/
inductive Receiver : Type
  | ref
  | refMut
deriving DecidableEq, Repr

/-- Symbolic return kind of a trait method, read off the source:
a raw const pointer to the element type, a Rust result of unit and the
driver-defined associated error type, or plain unit. -/
inductive RetKind : Type
  | constPtr
  | resultUnit
  | unit
deriving DecidableEq, Repr

/-- Signature of one trait method: its receiver kind, its return kind, and
whether it is declared asynchronous (none of the methods in the source is;
they are all plain synchronous functions). -/
structure MethodSig : Type where
  receiver : Receiver
  ret : RetKind
  isAsync : Bool
deriving DecidableEq, Repr

/-- The six methods declared across the two traits in `src/peripheral.rs`. -/
inductive Method : Type
  | source
  | enable_source
  | disable_source
  | destination
  | enable_destination
  | disable_destination
deriving DecidableEq, Repr

/-- The method table of the two traits, transcribed from the source:
`fn source(&self) -> *const E`,
`fn enable_source(&mut self) -> Result<(), Self::Error>`,
`fn disable_source(&mut self)`, and the three mirror methods of the
destination trait.  No method is declared asynchronous. -/
def methodSig : Method → MethodSig
  | Method.source => ⟨Receiver.ref, RetKind.constPtr, false⟩
  | Method.enable_source => ⟨Receiver.refMut, RetKind.resultUnit, false⟩
  | Method.disable_source => ⟨Receiver.refMut, RetKind.unit, false⟩
  | Method.destination => ⟨Receiver.ref, RetKind.constPtr, false⟩
  | Method.enable_destination => ⟨Receiver.refMut, RetKind.resultUnit, false⟩
  | Method.disable_destination => ⟨Receiver.refMut, RetKind.unit, false⟩

/-- Trait-level facts about one of the two capability traits:
whether the trait is declared as an unchecked contract (in the source both
traits carry the Rust marker that makes implementing them an explicit,
auditable obligation: the implementor, not the compiler, vouches that the
peripheral is genuinely DMA capable), and whether it declares a
driver-defined associated error type. -/
structure TraitSig : Type where
  unchecked : Bool
  hasErrorType : Bool
deriving DecidableEq, Repr

/-- The `Source` trait declaration: declared as an unchecked contract
(line 14 of the source), with an associated `Error` type. -/
def sourceTraitSig : TraitSig := ⟨true, true⟩

/-- The `Destination` trait declaration: declared as an unchecked contract
(line 52 of the source), with an associated `Error` type. -/
def destinationTraitSig : TraitSig := ⟨true, true⟩

/-- Modelled from the spec: the `Element` bound of both traits lives in
`super::Element`, outside this source file.  The spec describes it as a
fixed-size value type whose size matches the hardware register access
width; we record exactly that width in bits. -/
class Element (E : Type) : Type where
  width : Nat

/-- A raw pointer to a value of type `E`: the numeric address it holds.
The element type is carried in the pointer type, as in the source, where
the type of the returned pointer describes the accesses the DMA channel
performs. -/
structure Ptr (E : Type) : Type where
  addr : Nat
deriving DecidableEq, Repr

/-- The width in bits of the accesses the DMA channel performs through a
pointer: determined by the pointer's element type, per the source
documentation (the type of the pointer describes the type of the
accesses the DMA channel performs when transferring data). -/
def dmaAccessWidth {E : Type} [Element E] (_ : Ptr E) : Nat :=
  Element.width E

/-- Modelled from the spec: the hardware register map the contract speaks
about — which addresses are registers the DMA engine may read from and
which are registers it may write to. -/
structure Hardware : Type 1 where
  readable : Nat → Prop
  writable : Nat → Prop

/-- An implementation of the `Source` trait over instance-state type `S`
and element type `E`, transcribed from the trait declaration:
the associated error type, the request-signal constant (a `u32` in the
source, embedded as a natural number), the shared-reference accessor
`source`, the fallible exclusive-reference method `enable_source`
(returning the possibly mutated state together with its Rust result), and
the infallible exclusive-reference method `disable_source`. -/
structure SourceImpl (S : Type) (E : Type) : Type 1 where
  Error : Type
  SOURCE_REQUEST_SIGNAL : Nat
  source : S → Ptr E
  enable_source : S → S × Except Error Unit
  disable_source : S → S

/-- An implementation of the `Destination` trait, the mirror of
`SourceImpl`, transcribed from the trait declaration. -/
structure DestinationImpl (S : Type) (E : Type) : Type 1 where
  Error : Type
  DESTINATION_REQUEST_SIGNAL : Nat
  destination : S → Ptr E
  enable_destination : S → S × Except Error Unit
  disable_destination : S → S

/-- The states reachable from `init` by applying the state transformer
`dis` any number of times: the states of an instance on which only the
disable method has ever been called, i.e. that was never enabled. -/
inductive NeverEnabled {S : Type} (dis : S → S) (init : S) : S → Prop
  | base : NeverEnabled dis init init
  | step : ∀ {s : S}, NeverEnabled dis init s → NeverEnabled dis init (dis s)

/-- One lifecycle call of a source peripheral that changes state:
an enable call or a disable call (the accessor takes a shared reference
and cannot change state). -/
inductive SourceOp : Type
  | enable
  | disable
deriving DecidableEq, Repr

/-- Run a sequence of lifecycle calls on a source implementation,
threading the instance state. -/
def runSourceOps {S E : Type} (impl : SourceImpl S E) : List SourceOp → S → S
  | [], s => s
  | SourceOp.enable :: ops, s => runSourceOps impl ops (impl.enable_source s).1
  | SourceOp.disable :: ops, s => runSourceOps impl ops (impl.disable_source s)

/-- One lifecycle call of a destination peripheral that changes state. -/
inductive DestOp : Type
  | enable
  | disable
deriving DecidableEq, Repr

/-- Run a sequence of lifecycle calls on a destination implementation,
threading the instance state. -/
def runDestOps {S E : Type} (impl : DestinationImpl S E) : List DestOp → S → S
  | [], s => s
  | DestOp.enable :: ops, s => runDestOps impl ops (impl.enable_destination s).1
  | DestOp.disable :: ops, s => runDestOps impl ops (impl.disable_destination s)

/-- The request-signal identifier an instance in state `s` reports for the
source direction.  In the source this is an associated constant of the
implementing type, so the observation does not depend on the instance
state at all. -/
def sourceSignalAt {S E : Type} (impl : SourceImpl S E) (_ : S) : Nat :=
  impl.SOURCE_REQUEST_SIGNAL

/-- The request-signal identifier an instance in state `s` reports for the
destination direction; as for the source it is an associated constant of
the type, independent of the instance state. -/
def destSignalAt {S E : Type} (impl : DestinationImpl S E) (_ : S) : Nat :=
  impl.DESTINATION_REQUEST_SIGNAL

/-- Conformance of a source implementation, for an instance whose initial
(never yet enabled) state is `init`.  The fields are the obligations the
trait documentation and the contract place on implementors:

* `signal_u32`: the request signal is a `u32` constant (transcribed from
  the source, where the constant has type `u32`);
* `source_readable`: the returned address is a register the DMA engine
  may read from (modelled from the spec: the accessor returns the static
  read address of the data register);
* `source_static_enable`, `source_static_disable`: repeated `source`
  calls always return the same address, whatever lifecycle calls happen
  in between (transcribed from the source documentation: this memory is
  assumed to be static);
* `disable_init`: disabling a never-enabled fresh instance is a no-op
  (modelled from the spec: safe to call when never enabled);
* `disable_idem`: disabling twice in a row is the same as disabling once
  (modelled from the spec: idempotent);
* `enable_roundtrip`: if enabling succeeds, then enabling again right
  after disabling succeeds as well (modelled from the spec: the
  enable-disable-enable round trip must succeed if the first enable
  did). -/
structure SourceContract {S E : Type} (hw : Hardware)
    (impl : SourceImpl S E) (init : S) : Prop where
  signal_u32 : impl.SOURCE_REQUEST_SIGNAL < 2 ^ 32
  source_readable : ∀ s : S, hw.readable (impl.source s).addr
  source_static_enable :
    ∀ s : S, (impl.source (impl.enable_source s).1).addr = (impl.source s).addr
  source_static_disable :
    ∀ s : S, (impl.source (impl.disable_source s)).addr = (impl.source s).addr
  disable_init : impl.disable_source init = init
  disable_idem :
    ∀ s : S, impl.disable_source (impl.disable_source s) = impl.disable_source s
  enable_roundtrip :
    ∀ s : S, (impl.enable_source s).2 = Except.ok () →
      (impl.enable_source
        (impl.disable_source (impl.enable_source s).1)).2 = Except.ok ()

/-- Conformance of a destination implementation: the mirror of
`SourceContract`.  The address-stability and lifecycle laws are modelled
from the spec, which gives `destination` the same idempotence and purity
guarantees as `source` and the disable/enable pair the same laws;
`dest_writable` says the returned address is a register the DMA engine
writes to (the source documentation: the register into which the DMA
channel writes data). -/
structure DestinationContract {S E : Type} (hw : Hardware)
    (impl : DestinationImpl S E) (init : S) : Prop where
  signal_u32 : impl.DESTINATION_REQUEST_SIGNAL < 2 ^ 32
  dest_writable : ∀ s : S, hw.writable (impl.destination s).addr
  dest_static_enable :
    ∀ s : S,
      (impl.destination (impl.enable_destination s).1).addr
        = (impl.destination s).addr
  dest_static_disable :
    ∀ s : S,
      (impl.destination (impl.disable_destination s)).addr
        = (impl.destination s).addr
  disable_init : impl.disable_destination init = init
  disable_idem :
    ∀ s : S,
      impl.disable_destination (impl.disable_destination s)
        = impl.disable_destination s
  enable_roundtrip :
    ∀ s : S, (impl.enable_destination s).2 = Except.ok () →
      (impl.enable_destination
        (impl.disable_destination (impl.enable_destination s).1)).2
        = Except.ok ()

/-- An 8-bit transfer element, a concrete instance of the element bound. -/
structure Elem8 : Type where
  val : Nat
deriving DecidableEq, Repr

/-- A 16-bit transfer element, a concrete instance of the element bound. -/
structure Elem16 : Type where
  val : Nat
deriving DecidableEq, Repr

instance : Element Elem8 := ⟨8⟩

instance : Element Elem16 := ⟨16⟩

/-- A concrete hardware register map for the mock peripheral of the spec's
test scenarios: one readable data register at `0x40020000` and one
writable data register at `0x40020004`. -/
def mockHw : Hardware :=
  ⟨fun a => a = 0x40020000, fun a => a = 0x40020004⟩

/-- The initial, never-enabled state of the mock peripheral: the pair of
its source-enabled and destination-enabled flags, both clear. -/
def mockInit : Bool × Bool := (false, false)

/-- The spec's mock source peripheral: request signal `7`, `source` always
returning the fixed address `0x40020000`, `enable_source` always
succeeding.  Its state is the pair of enabled flags shared with the
destination capability of the same peripheral; the element width is
8 bits. -/
def mockSource : SourceImpl (Bool × Bool) Elem8 :=
  ⟨Empty, 7, fun _ => ⟨0x40020000⟩,
    fun s => ((true, s.2), Except.ok ()), fun s => (false, s.2)⟩

/-- The destination capability of the same mock peripheral: request signal
`9`, `destination` always returning the fixed address `0x40020004`,
`enable_destination` always succeeding; the element width is 16 bits,
different from the source side. -/
def mockDest : DestinationImpl (Bool × Bool) Elem16 :=
  ⟨Empty, 9, fun _ => ⟨0x40020004⟩,
    fun s => ((s.1, true), Except.ok ()), fun s => (s.1, false)⟩

/-- The mock source capability satisfies the source contract. -/
theorem mockSource_conforms : SourceContract mockHw mockSource mockInit :=
  ⟨by decide, fun _ => rfl, fun _ => rfl, fun _ => rfl, rfl,
    fun _ => rfl, fun _ _ => rfl⟩

/-- The mock destination capability satisfies the destination contract. -/
theorem mockDest_conforms : DestinationContract mockHw mockDest mockInit :=
  ⟨by decide, fun _ => rfl, fun _ => rfl, fun _ => rfl, rfl,
    fun _ => rfl, fun _ _ => rfl⟩

/-- Helper: for a conforming source implementation the address returned by
the accessor is invariant under any sequence of lifecycle calls. -/
theorem sourceAddrStable {S E : Type} {hw : Hardware} {impl : SourceImpl S E}
    {init : S} (h : SourceContract hw impl init) :
    ∀ (ops : List SourceOp) (s : S),
      (impl.source (runSourceOps impl ops s)).addr = (impl.source s).addr := by
  intro ops
  induction ops with
  | nil => intro s; rfl
  | cons op ops ih =>
    intro s
    cases op with
    | enable =>
      show (impl.source
          (runSourceOps impl ops (impl.enable_source s).1)).addr
        = (impl.source s).addr
      rw [ih]
      exact h.source_static_enable s
    | disable =>
      show (impl.source
          (runSourceOps impl ops (impl.disable_source s))).addr
        = (impl.source s).addr
      rw [ih]
      exact h.source_static_disable s

/-- Helper: for a conforming destination implementation the address
returned by the accessor is invariant under any sequence of lifecycle
calls. -/
theorem destAddrStable {S E : Type} {hw : Hardware}
    {impl : DestinationImpl S E} {init : S}
    (h : DestinationContract hw impl init) :
    ∀ (ops : List DestOp) (s : S),
      (impl.destination (runDestOps impl ops s)).addr
        = (impl.destination s).addr := by
  intro ops
  induction ops with
  | nil => intro s; rfl
  | cons op ops ih =>
    intro s
    cases op with
    | enable =>
      show (impl.destination
          (runDestOps impl ops (impl.enable_destination s).1)).addr
        = (impl.destination s).addr
      rw [ih]
      exact h.dest_static_enable s
    | disable =>
      show (impl.destination
          (runDestOps impl ops (impl.disable_destination s))).addr
        = (impl.destination s).addr
      rw [ih]
      exact h.dest_static_disable s

/-- Helper: a state transformer that fixes the initial state and is
idempotent is the identity on every state reachable from the initial
state by applying it alone. -/
theorem neverEnabledNoop {S : Type} {dis : S → S} {init : S}
    (hinit : dis init = init)
    (hidem : ∀ s : S, dis (dis s) = dis s) :
    ∀ s : S, NeverEnabled dis init s → dis s = s := by
  intro s h
  induction h with
  | base => exact hinit
  | step h ih => exact hidem _

/-- C1: for every conforming destination implementation, `destination`
returns the static write address of the peripheral's data register: the
returned address is unchanged by any sequence of lifecycle calls, and it
designates a register location the DMA channel writes data through. -/
theorem C1_destination_static_write_address
    {S E : Type} (hw : Hardware) (impl : DestinationImpl S E) (init : S)
    (h : DestinationContract hw impl init) (ops : List DestOp) (s : S) :
    (impl.destination (runDestOps impl ops s)).addr
        = (impl.destination s).addr
      ∧ hw.writable (impl.destination (runDestOps impl ops s)).addr :=
  ⟨destAddrStable h ops s, h.dest_writable _⟩

/-- Witness for C1: the mock destination, after an enable and a disable,
still reports the address `0x40020004`, a writable register. -/
theorem C1_destination_static_write_address_witness :
    (mockDest.destination
        (runDestOps mockDest [DestOp.enable, DestOp.disable] mockInit)).addr
      = (mockDest.destination mockInit).addr
    ∧ mockHw.writable (mockDest.destination
        (runDestOps mockDest [DestOp.enable, DestOp.disable] mockInit)).addr :=
  C1_destination_static_write_address mockHw mockDest mockInit
    mockDest_conforms [DestOp.enable, DestOp.disable] mockInit

/-- C2: the enable methods are the only methods of the two traits whose
return type is a Rust result (of unit and the driver-defined associated
error type); the accessors and the disable methods have no failure mode
in their signatures, and every enable call yields either success or a
value of the associated error type. -/
theorem C2_enable_only_fallible :
    (∀ m : Method, (methodSig m).ret = RetKind.resultUnit ↔
        (m = Method.enable_source ∨ m = Method.enable_destination))
    ∧ (∀ (S E : Type) (impl : SourceImpl S E) (s : S),
        (impl.enable_source s).2 = Except.ok ()
          ∨ ∃ e : impl.Error, (impl.enable_source s).2 = Except.error e)
    ∧ (∀ (S E : Type) (impl : DestinationImpl S E) (s : S),
        (impl.enable_destination s).2 = Except.ok ()
          ∨ ∃ e : impl.Error, (impl.enable_destination s).2
              = Except.error e) := by
  refine ⟨by intro m; cases m <;> decide, ?_, ?_⟩
  · intro S E impl s
    cases hres : (impl.enable_source s).2 with
    | error e => exact Or.inr ⟨e, rfl⟩
    | ok u =>
      cases u
      exact Or.inl rfl
  · intro S E impl s
    cases hres : (impl.enable_destination s).2 with
    | error e => exact Or.inr ⟨e, rfl⟩
    | ok u =>
      cases u
      exact Or.inl rfl

/-- C3: for every conforming implementation, the `source` and
`destination` accessors are pure and idempotent: the address they return
is the same across any number of calls, whatever enable and disable
calls happen in between. -/
theorem C3_accessors_pure_idempotent
    {S T E F : Type} (hw : Hardware)
    (si : SourceImpl S E) (inits : S)
    (di : DestinationImpl T F) (initd : T)
    (hs : SourceContract hw si inits)
    (hd : DestinationContract hw di initd) :
    (∀ (ops : List SourceOp) (s : S),
        (si.source (runSourceOps si ops s)).addr = (si.source s).addr)
    ∧ (∀ (ops : List DestOp) (t : T),
        (di.destination (runDestOps di ops t)).addr
          = (di.destination t).addr) :=
  ⟨fun ops s => sourceAddrStable hs ops s,
   fun ops t => destAddrStable hd ops t⟩

/-- Witness for C3 at the mock peripheral, with an enable-then-disable
history on the source side and a disable-then-enable history on the
destination side. -/
theorem C3_accessors_pure_idempotent_witness :
    (mockSource.source (runSourceOps mockSource
        [SourceOp.enable, SourceOp.disable] mockInit)).addr
      = (mockSource.source mockInit).addr
    ∧ (mockDest.destination (runDestOps mockDest
        [DestOp.disable, DestOp.enable] mockInit)).addr
      = (mockDest.destination mockInit).addr :=
  ⟨(C3_accessors_pure_idempotent mockHw mockSource mockInit mockDest
      mockInit mockSource_conforms mockDest_conforms).1
      [SourceOp.enable, SourceOp.disable] mockInit,
   (C3_accessors_pure_idempotent mockHw mockSource mockInit mockDest
      mockInit mockSource_conforms mockDest_conforms).2
      [DestOp.disable, DestOp.enable] mockInit⟩

/-- C4: the request-signal identifier of each direction is a fixed
integer constant that fits in 32 bits, and the identifier observed on an
instance does not depend on the instance state: it is equal across any
two states, including after any sequence of lifecycle calls. -/
theorem C4_request_signal_fixed
    {S T E F : Type} (hw : Hardware)
    (si : SourceImpl S E) (inits : S)
    (di : DestinationImpl T F) (initd : T)
    (hs : SourceContract hw si inits)
    (hd : DestinationContract hw di initd) :
    (si.SOURCE_REQUEST_SIGNAL < 2 ^ 32
      ∧ ∀ (ops : List SourceOp) (s u : S),
          sourceSignalAt si (runSourceOps si ops s) = sourceSignalAt si u)
    ∧ (di.DESTINATION_REQUEST_SIGNAL < 2 ^ 32
      ∧ ∀ (ops : List DestOp) (t u : T),
          destSignalAt di (runDestOps di ops t) = destSignalAt di u) :=
  ⟨⟨hs.signal_u32, fun _ _ _ => rfl⟩, ⟨hd.signal_u32, fun _ _ _ => rfl⟩⟩

/-- Witness for C4 at the mock peripheral: its source request signal is a
32-bit constant and reads the same on a fresh instance and after an
enable call. -/
theorem C4_request_signal_fixed_witness :
    mockSource.SOURCE_REQUEST_SIGNAL < 2 ^ 32
    ∧ sourceSignalAt mockSource
        (runSourceOps mockSource [SourceOp.enable] mockInit)
      = sourceSignalAt mockSource mockInit :=
  ⟨(C4_request_signal_fixed mockHw mockSource mockInit mockDest mockInit
      mockSource_conforms mockDest_conforms).1.1,
   (C4_request_signal_fixed mockHw mockSource mockInit mockDest mockInit
      mockSource_conforms mockDest_conforms).1.2
      [SourceOp.enable] mockInit mockInit⟩

/-- C5: both capability traits are declared as unchecked contracts in the
source: implementing them is an explicit, auditable obligation that the
compiler does not verify (in Rust terms, both are declared with the
marker that forces every implementation to acknowledge the obligation
explicitly). -/
theorem C5_traits_are_unchecked_contracts :
    sourceTraitSig.unchecked = true ∧ destinationTraitSig.unchecked = true :=
  ⟨rfl, rfl⟩

/-- C6: for every conforming implementation, the disable method is a
no-op on every state of an instance that was never enabled, and calling
it twice in a row leaves the state exactly as calling it once, on both
the source and the destination side. -/
theorem C6_disable_noop_idempotent
    {S T E F : Type} (hw : Hardware)
    (si : SourceImpl S E) (inits : S)
    (di : DestinationImpl T F) (initd : T)
    (hs : SourceContract hw si inits)
    (hd : DestinationContract hw di initd) :
    (∀ s : S, NeverEnabled si.disable_source inits s →
        si.disable_source s = s)
    ∧ (∀ s : S, si.disable_source (si.disable_source s)
        = si.disable_source s)
    ∧ (∀ t : T, NeverEnabled di.disable_destination initd t →
        di.disable_destination t = t)
    ∧ (∀ t : T, di.disable_destination (di.disable_destination t)
        = di.disable_destination t) :=
  ⟨neverEnabledNoop hs.disable_init hs.disable_idem,
   hs.disable_idem,
   neverEnabledNoop hd.disable_init hd.disable_idem,
   hd.disable_idem⟩

/-- Witness for C6 at the mock peripheral: disabling a fresh, never
enabled destination instance is a no-op, and a second consecutive
disable on the source side changes nothing. -/
theorem C6_disable_noop_idempotent_witness :
    mockDest.disable_destination mockInit = mockInit
    ∧ mockSource.disable_source (mockSource.disable_source mockInit)
      = mockSource.disable_source mockInit :=
  ⟨(C6_disable_noop_idempotent mockHw mockSource mockInit mockDest mockInit
      mockSource_conforms mockDest_conforms).2.2.1 mockInit
      NeverEnabled.base,
   (C6_disable_noop_idempotent mockHw mockSource mockInit mockDest mockInit
      mockSource_conforms mockDest_conforms).2.1 mockInit⟩

/-- C7: for every conforming source implementation, if `enable_source`
succeeds on a state, then after disabling right away (with no transfer in
between) a subsequent `enable_source` succeeds again. -/
theorem C7_enable_roundtrip
    {S E : Type} (hw : Hardware) (si : SourceImpl S E) (init : S)
    (hs : SourceContract hw si init) (s : S)
    (hok : (si.enable_source s).2 = Except.ok ()) :
    (si.enable_source (si.disable_source (si.enable_source s).1)).2
      = Except.ok () :=
  hs.enable_roundtrip s hok

/-- Witness for C7: on the mock source the first enable succeeds, and so
does the enable following an enable-disable round trip. -/
theorem C7_enable_roundtrip_witness :
    (mockSource.enable_source mockInit).2 = Except.ok ()
    ∧ (mockSource.enable_source
        (mockSource.disable_source
          (mockSource.enable_source mockInit).1)).2 = Except.ok () :=
  ⟨rfl, C7_enable_roundtrip mockHw mockSource mockInit mockSource_conforms
    mockInit rfl⟩

/-- C8: the accesses the DMA channel performs through the pointer
returned by either accessor have exactly the width of the element type
the capability is parameterized by; and a single peripheral (the mock,
with one shared instance state) implements the source capability at
8 bits and the destination capability at 16 bits, conforming to both
contracts with independent addresses and request signals. -/
theorem C8_element_width_and_dual_widths :
    (∀ (E : Type) [Element E] (S : Type) (impl : SourceImpl S E) (s : S),
        dmaAccessWidth (impl.source s) = Element.width E)
    ∧ (∀ (E : Type) [Element E] (S : Type) (impl : DestinationImpl S E)
        (s : S), dmaAccessWidth (impl.destination s) = Element.width E)
    ∧ Element.width Elem8 = 8
    ∧ Element.width Elem16 = 16
    ∧ SourceContract mockHw mockSource mockInit
    ∧ DestinationContract mockHw mockDest mockInit
    ∧ (mockSource.source mockInit).addr ≠ (mockDest.destination mockInit).addr
    ∧ mockSource.SOURCE_REQUEST_SIGNAL ≠ mockDest.DESTINATION_REQUEST_SIGNAL :=
  ⟨fun _ _ _ _ _ => rfl, fun _ _ _ _ _ => rfl, rfl, rfl,
   mockSource_conforms, mockDest_conforms,
   by show (0x40020000 : Nat) ≠ 0x40020004; decide,
   by decide⟩

/-- C9: every method of the two traits is declared as a plain synchronous
function: none of them is asynchronous, so in this embedding each is a
total function that yields its result immediately. -/
theorem C9_operations_synchronous :
    ∀ m : Method, (methodSig m).isAsync = false := by
  intro m
  cases m <;> decide

/-- C10: the address accessors are exactly the methods that take the
instance by shared reference, so they cannot mutate it, while the enable
and disable methods take it by exclusive mutable reference, so a safe
caller can never interleave an accessor call with a concurrently running
enable or disable on the same instance. -/
theorem C10_accessors_shared_lifecycle_exclusive :
    ∀ m : Method, ((methodSig m).receiver = Receiver.ref ↔
      (m = Method.source ∨ m = Method.destination)) := by
  intro m
  cases m <;> decide

end ImxrtDma
